import Mathlib

/-!
Verification development for the AI PDF Auto-Filler & Q/A application
(`app93.py`): a Streamlit script that OCRs an uploaded PDF, asks a remote
LLM to fill missing form values, re-renders the filled text as a paginated
PDF, and answers free-form questions, keeping a Q&A history in session
state.

The embedding below models, faithfully to the Python source:
  * the string operations the script uses (`str.strip`, slicing,
    `str.split("\n")`),
  * `generate_pdf` as a fold over lines acting on an explicit canvas
    state that records every `drawString` call (with its x/y position and
    the active font) and every completed page,
  * `pdf_to_text` over abstract per-page OCR outcomes,
  * `groq_fill_missing` / `groq_answer_question` over an abstract outcome
    of the single `requests.post` call each performs,
  * the top-to-bottom Streamlit script re-execution as a step function on
    the session state (`ocr_text`, `filled_text`, `qa_history`), with a
    log of which external calls each run performs.
-/

namespace App93

set_option maxRecDepth 100000

/-! ## Python string primitives -/

/-- Python `s[:n]` on a string (character-based slicing). -/
def pyTake (s : String) (n : Nat) : String := ⟨s.data.take n⟩

/-- Python `s[n:]` on a string (character-based slicing). -/
def pyDrop (s : String) (n : Nat) : String := ⟨s.data.drop n⟩

/-- Remove leading and trailing whitespace from a character list. -/
def stripChars (l : List Char) : List Char :=
  ((l.dropWhile Char.isWhitespace).reverse.dropWhile Char.isWhitespace).reverse

/-- Python `s.strip()`: remove leading and trailing whitespace. -/
def pyStrip (s : String) : String := ⟨stripChars s.data⟩

/-- Split a character list at every newline character; `n` newlines give
`n + 1` fields, so the empty list gives `[[]]`, matching Python
`"".split("\n") == [""]`. -/
def splitNlChars : List Char → List (List Char)
  | [] => [[]]
  | c :: cs =>
    if c = '\n' then [] :: splitNlChars cs
    else
      match splitNlChars cs with
      | [] => [[c]]
      | l :: ls => (c :: l) :: ls

/-- Python `text.split("\n")`. -/
def splitNl (s : String) : List String := (splitNlChars s.data).map (fun l => ⟨l⟩)

/-! ## PDF renderer (`generate_pdf`)

The reportlab canvas is modelled by the list of `drawString` calls of the
current page, the already completed pages, the vertical cursor `y` and the
active font.  `LETTER` is 612 x 792 points; all coordinates the script
produces are integers, so `y` is an `Int`. -/

/-- One `c.drawString(x, y, text)` call, together with the font that was
active when it was issued. -/
structure Draw where
  x : Int
  y : Int
  font : String × Nat
  text : String
deriving DecidableEq, Repr

/-- reportlab's canvas font before any `setFont` call. -/
def defaultFont : String × Nat := ("Helvetica", 12)

/-- The mutable canvas state of `generate_pdf`. -/
structure CanvasState where
  y : Int
  font : String × Nat
  curPage : List Draw
  donePages : List (List Draw)
deriving DecidableEq, Repr

/-- `c.drawString(x, y, t)`. -/
def CanvasState.drawString (s : CanvasState) (x y : Int) (t : String) : CanvasState :=
  { s with curPage := s.curPage ++ [⟨x, y, s.font, t⟩] }

/-- `c.setFont(f, size)`. -/
def CanvasState.setFont (s : CanvasState) (f : String) (size : Nat) : CanvasState :=
  { s with font := (f, size) }

/-- `c.showPage()`: closes the current page and resets the graphics state
(in particular the font) to its defaults. -/
def CanvasState.showPage (s : CanvasState) : CanvasState :=
  { s with donePages := s.donePages ++ [s.curPage], curPage := [], font := defaultFont }

/-- Fuel-driven model of the body of `generate_pdf`'s inner loop for one
non-blank line:
```
while len(line) > 110:
    c.drawString(40, y, line[:110])
    line = line[110:]
    y -= 12
c.drawString(40, y, line.strip())
y -= 12
```
Each iteration consumes 110 characters, so `line.length` is always enough
fuel; the fuel-0 case coincides with the loop-exit case. -/
def drawWrappedFuel : Nat → CanvasState → String → CanvasState
  | 0, s, line =>
    { s.drawString 40 s.y (pyStrip line) with y := s.y - 12 }
  | n + 1, s, line =>
    if 110 < line.length then
      drawWrappedFuel n
        { s.drawString 40 s.y (pyTake line 110) with y := s.y - 12 }
        (pyDrop line 110)
    else
      { s.drawString 40 s.y (pyStrip line) with y := s.y - 12 }

/-- The wrap-and-draw loop for one non-blank line of `generate_pdf`. -/
def drawWrapped (s : CanvasState) (line : String) : CanvasState :=
  drawWrappedFuel line.length s line

/-- The list of text segments the wrap loop draws for one non-blank line:
full 110-character chunks, then the stripped remainder. -/
def lineSegmentsFuel : Nat → String → List String
  | 0, line => [pyStrip line]
  | n + 1, line =>
    if 110 < line.length then
      pyTake line 110 :: lineSegmentsFuel n (pyDrop line 110)
    else
      [pyStrip line]

/-- The drawn segments of one non-blank line. -/
def lineSegments (line : String) : List String := lineSegmentsFuel line.length line

/-- One iteration of `generate_pdf`'s `for line in text.split("\n")` loop:
a blank line just moves the cursor; a non-blank line is wrapped and drawn,
and only then is the page-break check `if y < 40` performed. -/
def procLine (s : CanvasState) (line : String) : CanvasState :=
  if pyStrip line = "" then
    { s with y := s.y - 12 }
  else if (drawWrapped s line).y < 40 then
    ({ (drawWrapped s line).showPage with y := 792 - 40 }).setFont "Helvetica" 10
  else
    drawWrapped s line

/-- `generate_pdf(text)`: the sequence of pages the script draws, each
page being the list of its `drawString` calls in order.  (`c.save()`
flushes the pending page; when a page break occurred the re-applied font
makes the pending page non-empty in reportlab, so it is always emitted
here.) -/
def generate_pdf (text : String) : List (List Draw) :=
  let height : Int := 792
  let s0 : CanvasState := { y := height - 40, font := defaultFont, curPage := [], donePages := [] }
  let s1 := s0.setFont "Helvetica-Bold" 14
  let s2 := s1.drawString 40 s1.y "AI-Filled Form"
  let s3 := { s2 with y := s2.y - 30 }
  let s4 := s3.setFont "Helvetica" 10
  let sf := (splitNl text).foldl procLine s4
  sf.donePages ++ [sf.curPage]

/-- All strings drawn across all pages, in drawing order. -/
def drawnTexts (pages : List (List Draw)) : List String :=
  pages.flatten.map Draw.text

/-! ## Groq clients (`groq_fill_missing`, `groq_answer_question`)

Each client performs a single `requests.post` inside a `try`.  The
outcome of that call is abstracted as `Except String HttpResponse`: a
transport-level exception (carrying the exception's string rendering) or
a response.  On a response, `response.json()['choices'][0]['message']['content']`
may itself raise (malformed body); that fallible extraction is the
response's `json_content` field and any exception it raises is caught by
the same handler. -/

/-- `GROQ_MODEL = os.getenv("GROQ_MODEL", "llama3-8b-8192")`: the default
model identifier used when the environment supplies none. -/
def GROQ_MODEL : String := "llama3-8b-8192"

/-- The JSON body of one chat-completion request: `model`, a single
user-role message, `temperature` and `max_tokens`. -/
structure GroqRequest where
  model : String
  message : String
  temperature : ℚ
  max_tokens : Nat
deriving DecidableEq

/-- An HTTP response as the clients observe it. -/
structure HttpResponse where
  status_code : Nat
  text : String
  json_content : Except String String

/-- `groq_fill_missing(text)`, with `post` modelling `requests.post` at
the chat-completion endpoint. -/
def groq_fill_missing (text : String) (post : GroqRequest → Except String HttpResponse) :
    String :=
  let prompt :=
    "\nYou are an expert form assistant. The scanned form text below has missing values like " ++
      "N/A, nan, or ---.\nPlease fill missing values realistically and preserve the original " ++
      "layout.\n\n--- FORM START ---\n" ++ text ++ "\n--- FORM END ---\n"
  let data : GroqRequest :=
    { model := GROQ_MODEL, message := prompt, temperature := 3 / 10, max_tokens := 1500 }
  match post data with
  | .error e => "❌ Request failed: " ++ e
  | .ok response =>
    if response.status_code = 200 then
      match response.json_content with
      | .ok content => content
      | .error e => "❌ Request failed: " ++ e
    else
      "❌ Groq API error: " ++ response.text

/-- `groq_answer_question(text, question)`, with `post` modelling
`requests.post` at the chat-completion endpoint. -/
def groq_answer_question (text question : String)
    (post : GroqRequest → Except String HttpResponse) : String :=
  let prompt :=
    "\nYou are reading an AI-filled scanned form.\n\nForm Content:\n" ++ text ++
      "\n\nAnswer the following question:\n" ++ question ++ "\n"
  let data : GroqRequest :=
    { model := GROQ_MODEL, message := prompt, temperature := 4 / 10, max_tokens := 600 }
  match post data with
  | .error e => "❌ Request failed: " ++ e
  | .ok response =>
    if response.status_code = 200 then
      match response.json_content with
      | .ok content => content
      | .error e => "❌ Request failed: " ++ e
    else
      "❌ Groq API error: " ++ response.text

/-! ## Text extractor (`pdf_to_text`)

`convert_from_bytes` and each `pytesseract.image_to_string` call are
fallible external operations.  The conversion outcome is
`Except String (List (Except String String))`: either an exception, or
the list of pages in page order, each page's OCR being either an
exception or its recognized text.  The Python `for` loop propagates the
first per-page exception out to the `except` handler, discarding any
partial text.  The result pairs the returned string with the error
message reported via `st.error` (if any). -/

/-- The accumulation loop
`for img in images: text += pytesseract.image_to_string(img) + "\n"`,
stopping at the first page whose OCR raises. -/
def ocrLoop : List (Except String String) → String → Except String String
  | [], acc => .ok acc
  | .ok t :: rest, acc => ocrLoop rest (acc ++ t ++ "\n")
  | .error e :: _, _ => .error e

/-- `pdf_to_text(pdf_file)`: the returned string and the `st.error`
message, if one was reported. -/
def pdf_to_text (conv : Except String (List (Except String String))) :
    String × Option String :=
  match conv with
  | .error e => ("", some ("❌ PDF processing error: " ++ e))
  | .ok images =>
    match ocrLoop images "" with
    | .ok text => (text, none)
    | .error e => ("", some ("❌ PDF processing error: " ++ e))

/-! ## Session orchestration

Streamlit re-runs the whole script on every interaction.  One run reads
the widget values (`uploaded`, the Fill button, the question input) and
the outcomes of the external calls it performs, and updates the session
state.  `RunLog` records which external calls the run performed and with
which arguments, and which Q&A entries it appended. -/

/-- The persistent session state
(`st.session_state.ocr_text / filled_text / qa_history`). -/
structure SessionState where
  ocr_text : String
  filled_text : String
  qa_history : List (String × String)
deriving DecidableEq, Repr

/-- `st.session_state` after the three `setdefault` calls, at the start
of a fresh session. -/
def initState : SessionState := ⟨"", "", []⟩

/-- The externally determined inputs of one script run: the widget values
and the results the external services would return if called. -/
structure ScriptRun where
  uploaded : Bool
  ocr_result : String
  fill_clicked : Bool
  fill_result : String
  question : String
  answer : String
deriving DecidableEq, Repr

/-- `if uploaded: if not st.session_state.ocr_text: ... = pdf_to_text(...)`. -/
def upStep (s : SessionState) (r : ScriptRun) : SessionState :=
  if r.uploaded ∧ s.ocr_text = "" then { s with ocr_text := r.ocr_result } else s

/-- Number of `pdf_to_text` invocations the upload section performs. -/
def upCalls (s : SessionState) (r : ScriptRun) : Nat :=
  if r.uploaded ∧ s.ocr_text = "" then 1 else 0

/-- `if st.session_state.ocr_text: if st.button("✨ AI Fill Missing Fields"): ...`. -/
def fillStep (s : SessionState) (r : ScriptRun) : SessionState :=
  if s.ocr_text ≠ "" ∧ r.fill_clicked then { s with filled_text := r.fill_result } else s

/-- Arguments of the `groq_fill_missing` invocations the run performs. -/
def fillCallsOf (s : SessionState) (r : ScriptRun) : List String :=
  if s.ocr_text ≠ "" ∧ r.fill_clicked then [s.ocr_text] else []

/-- `if st.session_state.filled_text: ... if question: ... append(...)`. -/
def askStep (s : SessionState) (r : ScriptRun) : SessionState :=
  if s.filled_text ≠ "" ∧ r.question ≠ "" then
    { s with qa_history := s.qa_history ++ [(r.question, r.answer)] }
  else s

/-- Arguments `(filled_text, question)` of the `groq_answer_question`
invocations the run performs. -/
def askCallsOf (s : SessionState) (r : ScriptRun) : List (String × String) :=
  if s.filled_text ≠ "" ∧ r.question ≠ "" then [(s.filled_text, r.question)] else []

/-- The `(question, answer)` entries the run appends to `qa_history`. -/
def appendedOf (s : SessionState) (r : ScriptRun) : List (String × String) :=
  if s.filled_text ≠ "" ∧ r.question ≠ "" then [(r.question, r.answer)] else []

/-- The external calls one script run performs. -/
structure RunLog where
  ocrCalls : Nat
  fillCalls : List String
  askCalls : List (String × String)
  appended : List (String × String)
deriving DecidableEq, Repr

/-- One top-to-bottom execution of the script: upload section, then fill
section, then question section (each section reads the state left by the
previous one). -/
def run (s : SessionState) (r : ScriptRun) : SessionState × RunLog :=
  let s1 := upStep s r
  let s2 := fillStep s1 r
  let s3 := askStep s2 r
  (s3, ⟨upCalls s r, fillCallsOf s1 r, askCallsOf s2 r, appendedOf s2 r⟩)

/-- A whole interaction trace: successive script runs from a given
session state, collecting each run's log. -/
def runTrace : SessionState → List ScriptRun → SessionState × List RunLog
  | s, [] => (s, [])
  | s, r :: rs =>
    let p := run s r
    let q := runTrace p.1 rs
    (q.1, p.2 :: q.2)

/-- The Q&A history section displays `reversed(st.session_state.qa_history)`. -/
def displayedHistory (s : SessionState) : List (String × String) :=
  s.qa_history.reverse

/-! ## Lemmas about the string primitives -/

theorem pyDrop_length (s : String) (n : Nat) : (pyDrop s n).length = s.length - n :=
  List.length_drop n s.data

theorem pyTake_length (s : String) (n : Nat) : (pyTake s n).length = min n s.length :=
  List.length_take n s.data

theorem pyTake_append_pyDrop (s : String) (n : Nat) : pyTake s n ++ pyDrop s n = s :=
  String.ext (List.take_append_drop n s.data)

theorem str_append_assoc (a b c : String) : a ++ b ++ c = a ++ (b ++ c) :=
  String.ext (List.append_assoc a.data b.data c.data)

theorem str_join_cons (a : String) (l : List String) :
    String.join (a :: l) = a ++ String.join l :=
  String.ext (by simp [String.data_join])

theorem stripChars_length_le (l : List Char) : (stripChars l).length ≤ l.length := by
  unfold stripChars
  have h1 := (List.dropWhile_sublist (l := l) Char.isWhitespace).length_le
  have h2 := (List.dropWhile_sublist (l := (l.dropWhile Char.isWhitespace).reverse)
    Char.isWhitespace).length_le
  simp only [List.length_reverse] at *
  omega

theorem pyStrip_length_le (s : String) : (pyStrip s).length ≤ s.length :=
  stripChars_length_le s.data

theorem splitNlChars_ne_nil : ∀ l : List Char, splitNlChars l ≠ []
  | [] => by simp [splitNlChars]
  | c :: cs => by
    simp only [splitNlChars]
    split
    · simp
    · split
      · simp
      · simp

theorem splitNlChars_no_newline : ∀ l : List Char, '\n' ∉ l → splitNlChars l = [l]
  | [] => fun _ => rfl
  | c :: cs => fun h => by
    have hc : ¬ c = '\n' := fun e => h (e ▸ List.mem_cons_self c cs)
    have hcs : '\n' ∉ cs := fun m => h (List.mem_cons_of_mem _ m)
    simp only [splitNlChars, if_neg hc, splitNlChars_no_newline cs hcs]

theorem splitNl_no_newline (s : String) (h : '\n' ∉ s.data) : splitNl s = [s] := by
  simp only [splitNl, splitNlChars_no_newline s.data h, List.map]

/-! ## Lemmas about the wrap loop -/

theorem drawWrappedFuel_le (n : Nat) (s : CanvasState) (line : String)
    (h : ¬ 110 < line.length) :
    drawWrappedFuel n s line = { s.drawString 40 s.y (pyStrip line) with y := s.y - 12 } := by
  cases n with
  | zero => rfl
  | succ a => simp only [drawWrappedFuel, if_neg h]

theorem drawWrappedFuel_indep : ∀ (n m : Nat) (s : CanvasState) (line : String),
    line.length ≤ n → line.length ≤ m → drawWrappedFuel n s line = drawWrappedFuel m s line := by
  intro n
  induction n with
  | zero =>
    intro m s line hn _
    have h0 : ¬ 110 < line.length := by omega
    rw [drawWrappedFuel_le 0 s line h0, drawWrappedFuel_le m s line h0]
  | succ a ih =>
    intro m s line hn hm
    by_cases h : 110 < line.length
    · cases m with
      | zero => omega
      | succ b =>
        have hd : (pyDrop line 110).length = line.length - 110 := pyDrop_length line 110
        simp only [drawWrappedFuel, if_pos h]
        exact ih b _ _ (by omega) (by omega)
    · rw [drawWrappedFuel_le (a + 1) s line h, drawWrappedFuel_le m s line h]

theorem drawWrapped_le (s : CanvasState) (line : String) (h : ¬ 110 < line.length) :
    drawWrapped s line = { s.drawString 40 s.y (pyStrip line) with y := s.y - 12 } :=
  drawWrappedFuel_le line.length s line h

theorem drawWrapped_gt (s : CanvasState) (line : String) (h : 110 < line.length) :
    drawWrapped s line =
      drawWrapped { s.drawString 40 s.y (pyTake line 110) with y := s.y - 12 }
        (pyDrop line 110) := by
  unfold drawWrapped
  obtain ⟨k, hk⟩ : ∃ k, line.length = k + 1 := ⟨line.length - 1, by omega⟩
  have hd : (pyDrop line 110).length = line.length - 110 := pyDrop_length line 110
  rw [hk]
  simp only [drawWrappedFuel]
  rw [if_pos h]
  exact drawWrappedFuel_indep k (pyDrop line 110).length _ _ (by omega) (Nat.le_refl _)

theorem lineSegmentsFuel_le (n : Nat) (line : String) (h : ¬ 110 < line.length) :
    lineSegmentsFuel n line = [pyStrip line] := by
  cases n with
  | zero => rfl
  | succ a => simp only [lineSegmentsFuel, if_neg h]

theorem lineSegmentsFuel_indep : ∀ (n m : Nat) (line : String),
    line.length ≤ n → line.length ≤ m → lineSegmentsFuel n line = lineSegmentsFuel m line := by
  intro n
  induction n with
  | zero =>
    intro m line hn _
    have h0 : ¬ 110 < line.length := by omega
    rw [lineSegmentsFuel_le 0 line h0, lineSegmentsFuel_le m line h0]
  | succ a ih =>
    intro m line hn hm
    by_cases h : 110 < line.length
    · cases m with
      | zero => omega
      | succ b =>
        have hd : (pyDrop line 110).length = line.length - 110 := pyDrop_length line 110
        simp only [lineSegmentsFuel, if_pos h]
        rw [ih b _ (by omega) (by omega)]
    · rw [lineSegmentsFuel_le (a + 1) line h, lineSegmentsFuel_le m line h]

theorem lineSegments_short (line : String) (h : ¬ 110 < line.length) :
    lineSegments line = [pyStrip line] :=
  lineSegmentsFuel_le line.length line h

theorem lineSegments_gt (line : String) (h : 110 < line.length) :
    lineSegments line = pyTake line 110 :: lineSegments (pyDrop line 110) := by
  unfold lineSegments
  obtain ⟨k, hk⟩ : ∃ k, line.length = k + 1 := ⟨line.length - 1, by omega⟩
  have hd : (pyDrop line 110).length = line.length - 110 := pyDrop_length line 110
  rw [hk]
  simp only [lineSegmentsFuel]
  rw [if_pos h]
  rw [lineSegmentsFuel_indep k (pyDrop line 110).length _ (by omega) (Nat.le_refl _)]

/-- The draws the wrap loop appends for one line: its segments at
descending positions `y, y - 12, y - 24, …`, all at `x = 40` in font `f`. -/
def segDraws : Int → String × Nat → List String → List Draw
  | _, _, [] => []
  | y, f, t :: ts => ⟨40, y, f, t⟩ :: segDraws (y - 12) f ts

theorem segDraws_map_text : ∀ (ts : List String) (y : Int) (f : String × Nat),
    (segDraws y f ts).map Draw.text = ts
  | [], _, _ => rfl
  | t :: ts, y, f => by simp [segDraws, segDraws_map_text ts]

theorem drawWrapped_eq_short (line : String) (s : CanvasState) (h : ¬ 110 < line.length) :
    drawWrapped s line =
      { s with curPage := s.curPage ++ segDraws s.y s.font (lineSegments line),
               y := s.y - 12 * (lineSegments line).length } := by
  rw [drawWrapped_le s line h, lineSegments_short line h]
  simp [CanvasState.drawString, segDraws]

theorem drawWrapped_eq_aux : ∀ (n : Nat) (line : String) (s : CanvasState), line.length ≤ n →
    drawWrapped s line =
      { s with curPage := s.curPage ++ segDraws s.y s.font (lineSegments line),
               y := s.y - 12 * (lineSegments line).length } := by
  intro n
  induction n with
  | zero =>
    intro line s hn
    exact drawWrapped_eq_short line s (by omega)
  | succ a ih =>
    intro line s hn
    by_cases h110 : 110 < line.length
    · have hd : (pyDrop line 110).length = line.length - 110 := pyDrop_length line 110
      rw [drawWrapped_gt s line h110, lineSegments_gt line h110,
        ih (pyDrop line 110) _ (by omega)]
      simp only [CanvasState.drawString, segDraws, List.length_cons]
      refine CanvasState.mk.injEq .. ▸ ?_
      simp [List.append_assoc]
      ring
    · exact drawWrapped_eq_short line s h110

theorem drawWrapped_eq (s : CanvasState) (line : String) :
    drawWrapped s line =
      { s with curPage := s.curPage ++ segDraws s.y s.font (lineSegments line),
               y := s.y - 12 * (lineSegments line).length } :=
  drawWrapped_eq_aux line.length line s (Nat.le_refl _)

/-! ## Facts about the drawn segments of one line -/

theorem lineSegments_length_aux : ∀ (n : Nat) (line : String), line.length ≤ n →
    1 ≤ line.length → (lineSegments line).length = (line.length + 109) / 110 := by
  intro n
  induction n with
  | zero => intro line hn h1; omega
  | succ a ih =>
    intro line hn h1
    by_cases h110 : 110 < line.length
    · have hd : (pyDrop line 110).length = line.length - 110 := pyDrop_length line 110
      rw [lineSegments_gt line h110]
      simp only [List.length_cons]
      rw [ih (pyDrop line 110) (by omega) (by omega), hd]
      omega
    · rw [lineSegments_short line h110]
      simp only [List.length_singleton]
      omega

/-- A non-empty line produces exactly `⌈length / 110⌉` drawn segments. -/
theorem lineSegments_length (line : String) (h1 : 1 ≤ line.length) :
    (lineSegments line).length = (line.length + 109) / 110 :=
  lineSegments_length_aux line.length line (Nat.le_refl _) h1

theorem lineSegments_le_110_aux : ∀ (n : Nat) (line : String), line.length ≤ n →
    ∀ t ∈ lineSegments line, t.length ≤ 110 := by
  intro n
  induction n with
  | zero =>
    intro line hn t ht
    rw [lineSegments_short line (by omega)] at ht
    simp only [List.mem_singleton] at ht
    subst ht
    have := pyStrip_length_le line
    omega
  | succ a ih =>
    intro line hn t ht
    by_cases h110 : 110 < line.length
    · have hd : (pyDrop line 110).length = line.length - 110 := pyDrop_length line 110
      rw [lineSegments_gt line h110] at ht
      rcases List.mem_cons.mp ht with h | h
      · subst h
        rw [pyTake_length]
        omega
      · exact ih (pyDrop line 110) (by omega) t h
    · rw [lineSegments_short line h110] at ht
      simp only [List.mem_singleton] at ht
      subst ht
      have := pyStrip_length_le line
      omega

/-- Every drawn segment has at most 110 characters. -/
theorem lineSegments_le_110 (line : String) : ∀ t ∈ lineSegments line, t.length ≤ 110 :=
  lineSegments_le_110_aux line.length line (Nat.le_refl _)

theorem lineSegments_join_aux : ∀ (n : Nat) (line : String), line.length ≤ n →
    ∃ pre rest : String, line = pre ++ rest ∧
      String.join (lineSegments line) = pre ++ pyStrip rest ∧ rest.length ≤ 110 := by
  intro n
  induction n with
  | zero =>
    intro line hn
    refine ⟨"", line, rfl, ?_, by omega⟩
    rw [lineSegments_short line (by omega)]
    rfl
  | succ a ih =>
    intro line hn
    by_cases h110 : 110 < line.length
    · have hd : (pyDrop line 110).length = line.length - 110 := pyDrop_length line 110
      obtain ⟨pre, rest, he, hj, hr⟩ := ih (pyDrop line 110) (by omega)
      refine ⟨pyTake line 110 ++ pre, rest, ?_, ?_, hr⟩
      · rw [str_append_assoc, ← he, pyTake_append_pyDrop]
      · rw [lineSegments_gt line h110, str_join_cons, hj, str_append_assoc]
    · refine ⟨"", line, rfl, ?_, by omega⟩
      rw [lineSegments_short line h110]
      rfl

/-- The concatenation of the drawn segments is the original line with the
final remainder's surrounding whitespace stripped. -/
theorem lineSegments_join (line : String) :
    ∃ pre rest : String, line = pre ++ rest ∧
      String.join (lineSegments line) = pre ++ pyStrip rest ∧ rest.length ≤ 110 :=
  lineSegments_join_aux line.length line (Nat.le_refl _)

/-! ## All drawn texts of `generate_pdf` -/

/-- The texts a non-blank line contributes to the output; a blank line
contributes nothing. -/
def lineTexts (l : String) : List String :=
  if pyStrip l = "" then [] else lineSegments l

/-- Every string drawn so far, in drawing order. -/
def allTexts (s : CanvasState) : List String :=
  (s.donePages.flatten ++ s.curPage).map Draw.text

theorem allTexts_procLine (s : CanvasState) (l : String) :
    allTexts (procLine s l) = allTexts s ++ lineTexts l := by
  unfold procLine lineTexts
  by_cases hb : pyStrip l = ""
  · simp [hb, allTexts]
  · rw [if_neg hb, if_neg hb]
    by_cases hy : (drawWrapped s l).y < 40
    · rw [if_pos hy, drawWrapped_eq]
      simp [CanvasState.showPage, CanvasState.setFont, allTexts, List.flatten_append,
        segDraws_map_text, List.append_assoc]
    · rw [if_neg hy, drawWrapped_eq]
      simp [allTexts, segDraws_map_text, List.append_assoc]

theorem allTexts_foldl : ∀ (lines : List String) (s : CanvasState),
    allTexts (lines.foldl procLine s) = allTexts s ++ (lines.map lineTexts).flatten
  | [], s => by simp
  | l :: ls, s => by
    simp only [List.foldl_cons, List.map_cons, List.flatten_cons]
    rw [allTexts_foldl ls, allTexts_procLine, List.append_assoc]

/-- `generate_pdf` with its title prologue evaluated: the loop starts at
`y = 722` in font Helvetica 10 with the bold title already drawn at
`y = 752`. -/
theorem generate_pdf_eq (text : String) : generate_pdf text =
    ((splitNl text).foldl procLine
        ⟨722, ("Helvetica", 10), [⟨40, 752, ("Helvetica-Bold", 14), "AI-Filled Form"⟩], []⟩).donePages ++
      [((splitNl text).foldl procLine
        ⟨722, ("Helvetica", 10), [⟨40, 752, ("Helvetica-Bold", 14), "AI-Filled Form"⟩], []⟩).curPage] :=
  rfl

/-- The drawn output of `generate_pdf` is the title followed by the
segments of each non-blank input line, in order. -/
theorem drawnTexts_generate_pdf (text : String) :
    drawnTexts (generate_pdf text) =
      "AI-Filled Form" :: ((splitNl text).map lineTexts).flatten := by
  rw [generate_pdf_eq]
  unfold drawnTexts
  have hall : ∀ s : CanvasState,
      ((s.donePages ++ [s.curPage]).flatten).map Draw.text = allTexts s := by
    intro s
    simp [allTexts, List.flatten_append]
  rw [hall, allTexts_foldl]
  rfl

/-! ## Lemmas about the session orchestration -/

theorem run_state (s : SessionState) (r : ScriptRun) :
    (run s r).1 = askStep (fillStep (upStep s r) r) r := rfl

theorem fillCallsOf_ne_empty (s : SessionState) (r : ScriptRun) :
    ∀ a ∈ fillCallsOf s r, a ≠ "" := by
  intro a ha
  unfold fillCallsOf at ha
  split at ha
  · next h =>
    simp only [List.mem_singleton] at ha
    subst ha
    exact h.1
  · simp at ha

theorem runTrace_cons (s : SessionState) (r : ScriptRun) (rs : List ScriptRun) :
    runTrace s (r :: rs) =
      ((runTrace (run s r).1 rs).1, (run s r).2 :: (runTrace (run s r).1 rs).2) := rfl

theorem upStep_of_ne (s : SessionState) (r : ScriptRun) (h : s.ocr_text ≠ "") :
    upStep s r = s := by
  unfold upStep
  rw [if_neg (fun hc => h hc.2)]

theorem upCalls_of_ne (s : SessionState) (r : ScriptRun) (h : s.ocr_text ≠ "") :
    upCalls s r = 0 := by
  unfold upCalls
  rw [if_neg (fun hc => h hc.2)]

theorem fillStep_ocr (s : SessionState) (r : ScriptRun) :
    (fillStep s r).ocr_text = s.ocr_text := by
  unfold fillStep
  split <;> rfl

theorem askStep_ocr (s : SessionState) (r : ScriptRun) :
    (askStep s r).ocr_text = s.ocr_text := by
  unfold askStep
  split <;> rfl

theorem upStep_qa (s : SessionState) (r : ScriptRun) :
    (upStep s r).qa_history = s.qa_history := by
  unfold upStep
  split <;> rfl

theorem fillStep_qa (s : SessionState) (r : ScriptRun) :
    (fillStep s r).qa_history = s.qa_history := by
  unfold fillStep
  split <;> rfl

theorem askStep_qa (s : SessionState) (r : ScriptRun) :
    (askStep s r).qa_history = s.qa_history ++ appendedOf s r := by
  unfold askStep appendedOf
  split
  · rfl
  · simp

theorem run_ocr_of_ne (s : SessionState) (r : ScriptRun) (h : s.ocr_text ≠ "") :
    (run s r).1.ocr_text = s.ocr_text := by
  rw [run_state, askStep_ocr, fillStep_ocr, upStep_of_ne s r h]

theorem run_ocrCalls_of_ne (s : SessionState) (r : ScriptRun) (h : s.ocr_text ≠ "") :
    (run s r).2.ocrCalls = 0 :=
  upCalls_of_ne s r h

theorem runTrace_ocr_of_ne : ∀ (rs : List ScriptRun) (s : SessionState), s.ocr_text ≠ "" →
    (runTrace s rs).1.ocr_text = s.ocr_text ∧ ∀ log ∈ (runTrace s rs).2, log.ocrCalls = 0 := by
  intro rs
  induction rs with
  | nil => intro s h; exact ⟨rfl, by simp [runTrace]⟩
  | cons r rs ih =>
    intro s h
    have h1 : (run s r).1.ocr_text = s.ocr_text := run_ocr_of_ne s r h
    have h2 := ih (run s r).1 (h1 ▸ h)
    rw [runTrace_cons]
    refine ⟨h2.1.trans h1, ?_⟩
    intro log hlog
    rcases List.mem_cons.mp hlog with he | hm
    · subst he
      exact run_ocrCalls_of_ne s r h
    · exact h2.2 log hm

theorem run_qa (s : SessionState) (r : ScriptRun) :
    (run s r).1.qa_history = s.qa_history ++ (run s r).2.appended := by
  rw [run_state]
  show (askStep (fillStep (upStep s r) r) r).qa_history =
    s.qa_history ++ appendedOf (fillStep (upStep s r) r) r
  rw [askStep_qa, fillStep_qa, upStep_qa]

theorem runTrace_qa : ∀ (rs : List ScriptRun) (s : SessionState),
    (runTrace s rs).1.qa_history =
      s.qa_history ++ ((runTrace s rs).2.map RunLog.appended).flatten := by
  intro rs
  induction rs with
  | nil => intro s; simp [runTrace]
  | cons r rs ih =>
    intro s
    rw [runTrace_cons]
    simp only [List.map_cons, List.flatten_cons]
    rw [ih (run s r).1, run_qa, List.append_assoc]

theorem appended_length (s : SessionState) (r : ScriptRun) :
    (appendedOf s r).length = (askCallsOf s r).length := by
  unfold appendedOf askCallsOf
  split <;> rfl

theorem run_appended_length (s : SessionState) (r : ScriptRun) :
    (run s r).2.appended.length = (run s r).2.askCalls.length :=
  appended_length (fillStep (upStep s r) r) r

theorem runTrace_ask_count : ∀ (rs : List ScriptRun) (s : SessionState),
    (((runTrace s rs).2).map (fun l => l.appended.length)).sum =
      (((runTrace s rs).2).map (fun l => l.askCalls.length)).sum := by
  intro rs
  induction rs with
  | nil => intro s; rfl
  | cons r rs ih =>
    intro s
    rw [runTrace_cons]
    simp only [List.map_cons, List.sum_cons]
    rw [ih (run s r).1, run_appended_length]

/-! ## Lemmas about `pdf_to_text` -/

theorem str_append_empty (s : String) : s ++ "" = s :=
  String.ext (List.append_nil s.data)

theorem ocrLoop_ok_map : ∀ (pages : List String) (acc : String),
    ocrLoop (pages.map Except.ok) acc =
      .ok (acc ++ String.join (pages.map (fun p => p ++ "\n")))
  | [], acc => by
    simp only [List.map_nil, ocrLoop, String.join]
    rw [List.foldl_nil, str_append_empty]
  | p :: ps, acc => by
    simp only [List.map_cons, ocrLoop]
    rw [ocrLoop_ok_map ps, str_join_cons, ← str_append_assoc, ← str_append_assoc]

theorem ocrLoop_error_first : ∀ (pre : List String) (e : String)
    (post : List (Except String String)) (acc : String),
    ocrLoop (pre.map Except.ok ++ Except.error e :: post) acc = .error e
  | [], _, _, _ => rfl
  | p :: ps, e, post, acc => ocrLoop_error_first ps e post (acc ++ p ++ "\n")

theorem ocrLoop_ok_newline : ∀ (pages : List (Except String String)) (acc r : String),
    ocrLoop pages acc = .ok r → r = acc ∨ ∃ t, r = t ++ "\n" := by
  intro pages
  induction pages with
  | nil =>
    intro acc r h
    injection h with h
    exact .inl h.symm
  | cons p ps ih =>
    intro acc r h
    cases p with
    | ok t =>
      simp only [ocrLoop] at h
      rcases ih _ r h with h1 | h1
      · exact .inr ⟨acc ++ t, h1⟩
      · exact .inr h1
    | error e => simp [ocrLoop] at h

/-! ## Claim C1: wrapping of long lines -/

/-- Claim C1, counterexample.  The line of 110 `a`s followed by `" b"`
(112 characters) is drawn as two segments, but their concatenation is not
the original line: the final segment is drawn stripped (`line.strip()`),
losing the space.  The line of 111 spaces is longer than 110 characters
but `if not line.strip()` skips it, so it yields 0 drawn segments, not
`⌈111/110⌉ = 2`. -/
theorem c1_counterexample :
    (110 < (⟨List.replicate 110 'a' ++ [' ', 'b']⟩ : String).length
      ∧ ((drawnTexts (generate_pdf (⟨List.replicate 110 'a' ++ [' ', 'b']⟩ : String))).drop 1).length = 2
      ∧ String.join
          ((drawnTexts (generate_pdf (⟨List.replicate 110 'a' ++ [' ', 'b']⟩ : String))).drop 1) ≠
        (⟨List.replicate 110 'a' ++ [' ', 'b']⟩ : String))
    ∧ (110 < (⟨List.replicate 111 ' '⟩ : String).length
      ∧ ((⟨List.replicate 111 ' '⟩ : String).length + 109) / 110 = 2
      ∧ ((drawnTexts (generate_pdf (⟨List.replicate 111 ' '⟩ : String))).drop 1).length = 0) := by
  exact ⟨⟨by decide, by decide, by decide⟩, ⟨by decide, by decide, by decide⟩⟩

/-- Claim C1 (amended): for every newline-free input line longer than 110
characters that is not whitespace-only, `generate_pdf` draws exactly
`⌈len/110⌉` segments, each at most 110 characters, and their
concatenation equals the original line with the final (≤ 110-character)
remainder's surrounding whitespace stripped. -/
theorem c1_wrap_segments (line : String) (hnl : '\n' ∉ line.data)
    (hlen : 110 < line.length) (hnb : pyStrip line ≠ "") :
    (drawnTexts (generate_pdf line)).drop 1 = lineSegments line
    ∧ (lineSegments line).length = (line.length + 109) / 110
    ∧ (∀ t ∈ lineSegments line, t.length ≤ 110)
    ∧ ∃ pre rest : String, line = pre ++ rest ∧
        String.join (lineSegments line) = pre ++ pyStrip rest := by
  refine ⟨?_, lineSegments_length line (by omega), lineSegments_le_110 line, ?_⟩
  · rw [drawnTexts_generate_pdf, splitNl_no_newline line hnl]
    simp [lineTexts, hnb]
  · obtain ⟨pre, rest, h1, h2, _⟩ := lineSegments_join line
    exact ⟨pre, rest, h1, h2⟩

/-- Claim C1, witness: the theorem applied to a line of 111 `a`s. -/
theorem c1_wrap_segments_witness :
    ('\n' ∉ (⟨List.replicate 111 'a'⟩ : String).data
      ∧ 110 < (⟨List.replicate 111 'a'⟩ : String).length
      ∧ pyStrip (⟨List.replicate 111 'a'⟩ : String) ≠ "")
    ∧ (lineSegments (⟨List.replicate 111 'a'⟩ : String)).length =
        ((⟨List.replicate 111 'a'⟩ : String).length + 109) / 110 :=
  ⟨⟨by decide, by decide, by decide⟩,
    (c1_wrap_segments _ (by decide) (by decide) (by decide)).2.1⟩

/-! ## Claim C2: vertical cursor and pagination -/

/-- Claim C2, counterexample.  57 blank lines each decrement the cursor by
12 with no page-break check (`continue` skips it), so the following
non-blank line `"x"` is drawn at `y = 38`, strictly below the bottom
margin 40 — refuting "no line is ever drawn at a vertical position below
the bottom margin". -/
theorem c2_counterexample :
    Draw.mk 40 38 ("Helvetica", 10) "x" ∈
      (generate_pdf (⟨List.replicate 57 '\n' ++ ['x']⟩ : String)).flatten
    ∧ (38 : Int) < 40 :=
  ⟨by decide, by decide⟩

/-- Claim C2 (amended): for each non-blank line the cursor decreases by
12 per drawn segment; the below-margin check runs only after the line's
last segment, and when it fires a new page is started, the cursor resets
to `792 - 40` and the font is re-applied (`setFont "Helvetica" 10` after
`showPage`) — so after processing any non-blank line the cursor is at
least the bottom margin 40, though individual wrapped segments (and lines
following blank-line runs) may be drawn below it. -/
theorem c2_cursor_pagination (s : CanvasState) (line : String) (hnb : pyStrip line ≠ "") :
    (drawWrapped s line).y = s.y - 12 * (lineSegments line).length
    ∧ 40 ≤ (procLine s line).y
    ∧ ((drawWrapped s line).y < 40 →
        procLine s line =
          ({ (drawWrapped s line).showPage with y := 792 - 40 }).setFont "Helvetica" 10)
    ∧ (¬ (drawWrapped s line).y < 40 → procLine s line = drawWrapped s line) := by
  refine ⟨by rw [drawWrapped_eq], ?_, ?_, ?_⟩
  · unfold procLine
    rw [if_neg hnb]
    by_cases h : (drawWrapped s line).y < 40
    · rw [if_pos h]
      show (40 : Int) ≤ 792 - 40
      omega
    · rw [if_neg h]
      omega
  · intro h
    unfold procLine
    rw [if_neg hnb, if_pos h]
  · intro h
    unfold procLine
    rw [if_neg hnb, if_neg h]

/-- Claim C2, witness: the theorem applied to the loop's start state and
the line `"x"`. -/
theorem c2_cursor_pagination_witness :
    pyStrip "x" ≠ "" ∧ 40 ≤ (procLine ⟨722, ("Helvetica", 10), [], []⟩ "x").y :=
  ⟨by decide, (c2_cursor_pagination ⟨722, ("Helvetica", 10), [], []⟩ "x" (by decide)).2.1⟩

/-! ## Claim C3: client error handling -/

/-- Claim C3 (confirmed): both clients are total functions of the request
outcome (nothing raises in the embedding); when the post raises a
transport exception `e` they return the formatted error string
`"❌ Request failed: " ++ e`, and when it returns a response with a
non-200 status they return the error marker followed by the literal
response body. -/
theorem c3_clients_error_handling (text question : String)
    (post : GroqRequest → Except String HttpResponse) :
    (∀ e : String, (∀ req, post req = .error e) →
        groq_fill_missing text post = "❌ Request failed: " ++ e
        ∧ groq_answer_question text question post = "❌ Request failed: " ++ e)
    ∧ (∀ resp : HttpResponse, (∀ req, post req = .ok resp) → resp.status_code ≠ 200 →
        groq_fill_missing text post = "❌ Groq API error: " ++ resp.text
        ∧ groq_answer_question text question post = "❌ Groq API error: " ++ resp.text) := by
  constructor
  · intro e h
    constructor
    · simp only [groq_fill_missing]
      rw [h]
    · simp only [groq_answer_question]
      rw [h]
  · intro resp h hs
    constructor
    · simp only [groq_fill_missing]
      rw [h]
      simp only [if_neg hs]
    · simp only [groq_answer_question]
      rw [h]
      simp only [if_neg hs]

/-- Claim C3, witness: a transport failure and a 500 response at concrete
inputs. -/
theorem c3_clients_error_handling_witness :
    groq_fill_missing "form" (fun _ => .error "connection refused") =
        "❌ Request failed: " ++ "connection refused"
    ∧ groq_answer_question "form" "q"
        (fun _ => .ok ⟨500, "Internal Server Error", .error "boom"⟩) =
      "❌ Groq API error: " ++ "Internal Server Error" :=
  ⟨((c3_clients_error_handling "form" "q" (fun _ => .error "connection refused")).1
      "connection refused" (fun _ => rfl)).1,
   ((c3_clients_error_handling "form" "q"
        (fun _ => .ok ⟨500, "Internal Server Error", .error "boom"⟩)).2
      ⟨500, "Internal Server Error", .error "boom"⟩ (fun _ => rfl) (by decide)).2⟩

/-! ## Claim C4: Fill requires non-empty Document Text -/

theorem runTrace_fillCalls_ne_empty : ∀ (rs : List ScriptRun) (s : SessionState),
    ∀ log ∈ (runTrace s rs).2, ∀ a ∈ log.fillCalls, a ≠ "" := by
  intro rs
  induction rs with
  | nil => intro s log hlog; simp [runTrace] at hlog
  | cons r rs ih =>
    intro s log hlog
    rw [runTrace_cons] at hlog
    rcases List.mem_cons.mp hlog with he | hm
    · subst he
      exact fillCallsOf_ne_empty (upStep s r) r
    · exact ih (run s r).1 log hm

/-- Claim C4 (confirmed): in every trace from the fresh session state, the
orchestrator only invokes `groq_fill_missing` with a non-empty Document
Text (the Fill section runs under `if st.session_state.ocr_text:`). -/
theorem c4_fill_requires_ocr (rs : List ScriptRun) :
    ∀ log ∈ (runTrace initState rs).2, ∀ a ∈ log.fillCalls, a ≠ "" :=
  runTrace_fillCalls_ne_empty rs initState

/-- Claim C4, witness: a run that uploads and fills in one interaction;
the logged fill argument is the non-empty OCR text. -/
theorem c4_fill_requires_ocr_witness :
    ((⟨1, ["doc"], [], []⟩ : RunLog) ∈
        (runTrace initState [⟨true, "doc", true, "filled", "", ""⟩]).2
      ∧ "doc" ∈ (⟨1, ["doc"], [], []⟩ : RunLog).fillCalls)
    ∧ "doc" ≠ "" :=
  ⟨⟨by decide, by decide⟩,
    c4_fill_requires_ocr [⟨true, "doc", true, "filled", "", ""⟩]
      ⟨1, ["doc"], [], []⟩ (by decide) "doc" (by decide)⟩

/-! ## Claim C5: the OCR guard -/

/-- Claim C5, counterexample.  A corrupt PDF makes `pdf_to_text` report an
error and return `""`; since the guard is `if not st.session_state.ocr_text`,
the stored empty text makes OCR run again (and the error be reported
again) on the next UI refresh while the file remains uploaded: two
invocations within a single upload attempt. -/
theorem c5_counterexample :
    pdf_to_text (.error "corrupt pdf") =
        ("", some ("❌ PDF processing error: " ++ "corrupt pdf"))
    ∧ (runTrace initState
        [⟨true, "", false, "", "", ""⟩, ⟨true, "", false, "", "", ""⟩]).2.map RunLog.ocrCalls =
      [1, 1] :=
  ⟨rfl, by decide⟩

/-- Claim C5 (amended): the upload transition invokes the Text Extractor
exactly when a file is uploaded and Document Text is empty; once Document
Text is non-empty, OCR never runs again in any later interaction — but
after a failed extraction Document Text stays empty, so OCR re-runs (and
the error is re-reported) on every refresh while the file stays uploaded. -/
theorem c5_ocr_guard (s : SessionState) (r : ScriptRun) (rs : List ScriptRun) :
    ((run s r).2.ocrCalls = 1 ↔ r.uploaded = true ∧ s.ocr_text = "")
    ∧ (s.ocr_text ≠ "" → ∀ log ∈ (runTrace s rs).2, log.ocrCalls = 0) := by
  constructor
  · show upCalls s r = 1 ↔ _
    unfold upCalls
    by_cases h : r.uploaded = true ∧ s.ocr_text = ""
    · rw [if_pos h]
      exact iff_of_true rfl h
    · rw [if_neg h]
      exact iff_of_false (by omega) h
  · intro h
    exact (runTrace_ocr_of_ne rs s h).2

/-- Claim C5, witness: with Document Text already non-empty, a further
uploaded-file refresh performs no OCR call. -/
theorem c5_ocr_guard_witness :
    ((⟨"A", "", []⟩ : SessionState).ocr_text ≠ ""
      ∧ (⟨0, [], [], []⟩ : RunLog) ∈
          (runTrace ⟨"A", "", []⟩ [⟨true, "B", false, "", "", ""⟩]).2)
    ∧ (⟨0, [], [], []⟩ : RunLog).ocrCalls = 0 :=
  ⟨⟨by decide, by decide⟩,
    (c5_ocr_guard ⟨"A", "", []⟩ ⟨true, "B", false, "", "", ""⟩
        [⟨true, "B", false, "", "", ""⟩]).2 (by decide)
      ⟨0, [], [], []⟩ (by decide)⟩

/-! ## Claim C6: Q&A history -/

/-- Claim C6 (confirmed): from the fresh session state, `qa_history` is
exactly the concatenation, in order, of the entries the runs appended
(append-only, insertion order preserved, nothing mutated or deleted); its
length equals the number of Ask actions (runs where Filled Text and the
question are non-empty); and it is displayed most-recent-first
(`reversed(...)`). -/
theorem c6_qa_history (rs : List ScriptRun) :
    (runTrace initState rs).1.qa_history =
      ((runTrace initState rs).2.map RunLog.appended).flatten
    ∧ (runTrace initState rs).1.qa_history.length =
      ((runTrace initState rs).2.map (fun l => l.askCalls.length)).sum
    ∧ displayedHistory (runTrace initState rs).1 =
      ((runTrace initState rs).1.qa_history).reverse
    ∧ ∀ (s : SessionState) (r : ScriptRun), ∃ t, (run s r).1.qa_history = s.qa_history ++ t := by
  have h1 := runTrace_qa rs initState
  refine ⟨?_, ?_, rfl, fun s r => ⟨(run s r).2.appended, run_qa s r⟩⟩
  · rw [h1]
    rfl
  · rw [h1]
    show (((runTrace initState rs).2.map RunLog.appended).flatten).length = _
    rw [List.length_flatten, List.map_map]
    exact runTrace_ask_count rs initState

/-! ## Claim C7: short non-blank lines -/

/-- Claim C7, counterexample.  The short non-blank line `"  hi"` is not
preserved verbatim: the renderer draws `line.strip()`, so only `"hi"`
appears in the drawn output. -/
theorem c7_counterexample :
    "  hi" ∈ splitNl "  hi"
    ∧ pyStrip "  hi" ≠ ""
    ∧ ("  hi" : String).length ≤ 110
    ∧ "  hi" ∉ drawnTexts (generate_pdf "  hi") :=
  ⟨by decide, by decide, by decide, by decide⟩

/-- Claim C7 (amended): every non-blank input line of at most 110
characters appears in the drawn output with its surrounding whitespace
stripped — `line.strip()` is drawn verbatim, so lines without surrounding
whitespace are preserved verbatim. -/
theorem c7_short_line_preserved (text line : String) (hmem : line ∈ splitNl text)
    (hnb : pyStrip line ≠ "") (hlen : line.length ≤ 110) :
    pyStrip line ∈ drawnTexts (generate_pdf text) := by
  rw [drawnTexts_generate_pdf]
  refine List.mem_cons_of_mem _ ?_
  rw [List.mem_flatten]
  refine ⟨lineTexts line, List.mem_map_of_mem lineTexts hmem, ?_⟩
  unfold lineTexts
  rw [if_neg hnb, lineSegments_short line (by omega)]
  simp

/-- Claim C7, witness: `"ok"` rendered alone is drawn verbatim. -/
theorem c7_short_line_preserved_witness :
    ("ok" ∈ splitNl "ok" ∧ pyStrip "ok" ≠ "" ∧ ("ok" : String).length ≤ 110)
    ∧ pyStrip "ok" ∈ drawnTexts (generate_pdf "ok") :=
  ⟨⟨by decide, by decide, by decide⟩,
    c7_short_line_preserved "ok" "ok" (by decide) (by decide) (by decide)⟩

/-! ## Claim C8: the text extractor's contract -/

/-- Claim C8 (confirmed): when conversion succeeds and every page's OCR
succeeds, `pdf_to_text` returns the page texts concatenated in page
order, each followed by a newline, and reports no error; when conversion
raises, or any page's OCR raises, the exception is caught, a formatted
error is reported, and the empty string is returned. -/
theorem c8_pdf_to_text_contract (conv : Except String (List (Except String String))) :
    (∀ pages : List String, conv = .ok (pages.map Except.ok) →
        pdf_to_text conv = (String.join (pages.map (fun p => p ++ "\n")), none))
    ∧ (∀ e : String, conv = .error e →
        pdf_to_text conv = ("", some ("❌ PDF processing error: " ++ e)))
    ∧ (∀ (pre : List String) (e : String) (post : List (Except String String)),
        conv = .ok (pre.map Except.ok ++ Except.error e :: post) →
        pdf_to_text conv = ("", some ("❌ PDF processing error: " ++ e))) := by
  refine ⟨?_, ?_, ?_⟩
  · intro pages h
    subst h
    simp only [pdf_to_text]
    rw [ocrLoop_ok_map]
    rfl
  · intro e h
    subst h
    rfl
  · intro pre e post h
    subst h
    simp only [pdf_to_text]
    rw [ocrLoop_error_first]

/-- Claim C8, witness: one page with OCR text `"pg"`. -/
theorem c8_pdf_to_text_contract_witness :
    ((Except.ok [Except.ok "pg"] : Except String (List (Except String String))) =
        .ok (["pg"].map Except.ok))
    ∧ pdf_to_text (.ok [.ok "pg"]) = (String.join (["pg"].map (fun p => p ++ "\n")), none) :=
  ⟨rfl, (c8_pdf_to_text_contract (.ok [.ok "pg"])).1 ["pg"] rfl⟩

/-! ## Claim C9: Document Text and uploads -/

/-- Claim C9, counterexample.  Uploading document B after document A has
been OCR'd leaves Document Text unchanged: the guard
`if not st.session_state.ocr_text` never fires again, so the new
document's OCR output is *not* stored. -/
theorem c9_counterexample :
    (runTrace initState
        [⟨true, "A\n", false, "", "", ""⟩, ⟨true, "B\n", false, "", "", ""⟩]).1.ocr_text = "A\n"
    ∧ ("A\n" : String) ≠ "B\n" :=
  ⟨by decide, by decide⟩

/-- Claim C9 (amended): Document Text is written only while it is empty —
an upload with empty Document Text stores the uploaded document's OCR
output, and once non-empty it is immutable for the rest of the session
(a new upload does not replace it; only a session restart resets it). -/
theorem c9_document_text_upload (s : SessionState) (r : ScriptRun) :
    (r.uploaded = true → s.ocr_text = "" → (run s r).1.ocr_text = r.ocr_result)
    ∧ (s.ocr_text ≠ "" → (run s r).1.ocr_text = s.ocr_text) := by
  constructor
  · intro hu he
    rw [run_state, askStep_ocr, fillStep_ocr]
    unfold upStep
    rw [if_pos ⟨hu, he⟩]
  · exact run_ocr_of_ne s r

/-- Claim C9, witness: a first upload into the fresh session stores its
OCR output. -/
theorem c9_document_text_upload_witness :
    ((⟨true, "doc", false, "", "", ""⟩ : ScriptRun).uploaded = true
      ∧ initState.ocr_text = "")
    ∧ (run initState ⟨true, "doc", false, "", "", ""⟩).1.ocr_text = "doc" :=
  ⟨⟨rfl, rfl⟩, (c9_document_text_upload initState ⟨true, "doc", false, "", "", ""⟩).1 rfl rfl⟩

/-! ## Claim C10: trailing newline -/

/-- Claim C10 (confirmed): every non-empty string `pdf_to_text` returns
ends with a newline, since `"\n"` is appended after every page's OCR text
including the last. -/
theorem c10_trailing_newline (conv : Except String (List (Except String String)))
    (h : (pdf_to_text conv).1 ≠ "") :
    ∃ t : String, (pdf_to_text conv).1 = t ++ "\n" := by
  cases conv with
  | error e => exact absurd rfl h
  | ok images =>
    simp only [pdf_to_text] at h ⊢
    cases hoc : ocrLoop images "" with
    | ok text =>
      rw [hoc] at h
      rcases ocrLoop_ok_newline images "" text hoc with h1 | h1
      · exact absurd h1 h
      · exact h1
    | error e =>
      rw [hoc] at h
      exact absurd rfl h

/-- Claim C10, witness: a one-page document. -/
theorem c10_trailing_newline_witness :
    (pdf_to_text (.ok [.ok "hi"])).1 ≠ ""
    ∧ ∃ t : String, (pdf_to_text (.ok [.ok "hi"])).1 = t ++ "\n" :=
  ⟨by decide, c10_trailing_newline (.ok [.ok "hi"]) (by decide)⟩

end App93
